import Mathlib

/-!
Verification of the Cross-Market Position & Risk Aggregation Engine of the
Moonwell plugin.  BigNumber.js arbitrary-precision decimal values are embedded
as rationals; raw on-chain integers are embedded as naturals.  Every
definition below is a direct translation of a function in the repository
(file and line references are given on each definition).
-/

/-- Metadata of one supported asset, from SUPPORTED_ASSETS in
src/utils/validation.ts. -/
structure AssetInfo where
  symbol : String
  decimals : Nat
  address : String
deriving DecidableEq

/-- The supported-asset table of src/utils/validation.ts (Base mainnet). -/
def SUPPORTED_ASSETS : List (String × AssetInfo) :=
  [ ("USDC", ⟨"USDC", 6, "0x833589fCD6eDb6E08f4c7C32D4f71b54bdA02913"⟩),
    ("WETH", ⟨"WETH", 18, "0x4200000000000000000000000000000000000006"⟩),
    ("cbETH", ⟨"cbETH", 18, "0x2Ae3F1Ec7F1F5012CFEab0185bfc7aa3cf0DEc22"⟩),
    ("DAI", ⟨"DAI", 18, "0x50c5725949A6F0c72E6C4a641F24049A917DB0Cb"⟩),
    ("USDbC", ⟨"USDbC", 6, "0xd9aAEc86B65D86f6A7B5B1b0c42FFA531710b6CA"⟩) ]

/-- Rounding to two decimal places, as BigNumber toFixed(2) with the default
ROUND_HALF_UP mode.  Half-up and away-from-zero ties differ only for negative
inputs; every quantity rounded by the code (collateral and debt in USD) is
non-negative, where the two modes agree. -/
def roundTo2 (q : ℚ) : ℚ :=
  ((⌊q * 100 + 1 / 2⌋ : ℤ) : ℚ) / 100

/-- calculateHealthFactor of src/utils/validation.ts lines 184-196: the
sentinel 999 when debt is zero, otherwise the threshold-weighted
collateral-to-debt ratio rounded to two decimals. -/
def calculateHealthFactor (totalCollateralInUSD totalDebtInUSD : ℚ)
    (liquidationThreshold : ℚ) : ℚ :=
  if totalDebtInUSD = 0 then 999
  else roundTo2 (totalCollateralInUSD * liquidationThreshold / totalDebtInUSD)

/-- formatAmount of src/utils/validation.ts lines 173-175: divide a raw
fixed-point amount by 10 to the power of the decimal count.  The BigNumber
division is exact here because every supported decimal count is at most 18,
below the 20-decimal-place division limit. -/
def formatAmount (amount : ℚ) (decimals : Nat) : ℚ :=
  amount / 10 ^ decimals

/-- parseAmount of src/utils/validation.ts lines 177-182: multiply a
canonical amount by 10 to the power of the decimal count. -/
def parseAmount (amount : ℚ) (decimals : Nat) : ℚ :=
  amount * 10 ^ decimals

/-- The repay-amount determination of MoonwellService.repay,
src/services/moonwell-service.ts lines 371-383: an isMax request repays the
stored borrow balance; otherwise the parsed request is capped at the borrow
balance. -/
def determineRepayAmount (isMax : Bool) (amount : ℚ) (decimals : Nat)
    (borrowBalance : ℚ) : ℚ :=
  if isMax then borrowBalance
  else
    let repayAmount := parseAmount amount decimals
    if borrowBalance < repayAmount then borrowBalance else repayAmount

/-- C7: calculateHealthFactor returns the sentinel 999 on zero debt and the
two-decimal rounding of collateral times threshold over debt otherwise; at
collateral 10000 USD, debt 5000 USD and threshold 0.8 it returns exactly
1.6. -/
theorem calculateHealthFactor_spec :
    (∀ c t : ℚ, calculateHealthFactor c 0 t = 999) ∧
    (∀ c d t : ℚ, d ≠ 0 →
      calculateHealthFactor c d t = roundTo2 (c * t / d)) ∧
    calculateHealthFactor 10000 5000 (4 / 5) = 8 / 5 := by
  refine ⟨fun c t => by simp [calculateHealthFactor], fun c d t hd => by
    simp [calculateHealthFactor, hd], ?_⟩
  norm_num [calculateHealthFactor, roundTo2]

/-- Witness for C7 at concrete non-zero debt. -/
theorem calculateHealthFactor_spec_witness :
    (3 : ℚ) ≠ 0 ∧ calculateHealthFactor 2 3 1 = roundTo2 (2 * 1 / 3) :=
  ⟨by norm_num, calculateHealthFactor_spec.2.1 2 3 1 (by norm_num)⟩

/-- C9: converting a raw integer amount to canonical form and back is the
identity for the supported decimal counts 6 and 18; no truncation occurs on
integer inputs. -/
theorem parseAmount_formatAmount_roundtrip :
    ∀ (x : ℕ) (d : ℕ), d = 6 ∨ d = 18 →
      parseAmount (formatAmount (x : ℚ) d) d = (x : ℚ) := by
  intro x d _
  have hpow : (10 : ℚ) ^ d ≠ 0 := pow_ne_zero d (by norm_num)
  simp [parseAmount, formatAmount, div_mul_cancel₀, hpow]

/-- Witness for C9 at a concrete raw amount and decimal count. -/
theorem parseAmount_formatAmount_roundtrip_witness :
    ((6 : ℕ) = 6 ∨ (6 : ℕ) = 18) ∧
      parseAmount (formatAmount ((1234567 : ℕ) : ℚ) 6) 6 = ((1234567 : ℕ) : ℚ) :=
  ⟨Or.inl rfl, parseAmount_formatAmount_roundtrip 1234567 6 (Or.inl rfl)⟩

/-- C8: an isMax repay request repays exactly the outstanding borrow balance
(in particular a 1000000000-raw-unit debt on a 6-decimal asset repays exactly
1000000000), and a non-max request whose parsed amount exceeds the borrow
balance is capped at the borrow balance. -/
theorem determineRepayAmount_clamps :
    (∀ (a : ℚ) (d : Nat) (b : ℚ), determineRepayAmount true a d b = b) ∧
    (∀ (a : ℚ) (d : Nat) (b : ℚ), b < parseAmount a d →
      determineRepayAmount false a d b = b) ∧
    determineRepayAmount true 1000 6 1000000000 = 1000000000 := by
  refine ⟨fun a d b => rfl, fun a d b h => ?_, rfl⟩
  simp [determineRepayAmount, h]

/-- Witness for C8: a non-max request of 2 canonical units on a 6-decimal
asset against a debt of 1000000 raw units is capped at the debt. -/
theorem determineRepayAmount_clamps_witness :
    (1000000 : ℚ) < parseAmount 2 6 ∧
      determineRepayAmount false 2 6 1000000 = 1000000 :=
  ⟨by norm_num [parseAmount],
    determineRepayAmount_clamps.2.1 2 6 1000000 (by norm_num [parseAmount])⟩

/-- AssetPosition of src/types/index.ts: one exposure within one market.
Direction (supply versus debt) is carried by the list it lives in. -/
structure AssetPosition where
  asset : String
  symbol : String
  balance : ℚ
  balanceInUSD : ℚ
  apy : ℚ
  isCollateral : Option Bool := none
deriving DecidableEq

/-- UserPosition of src/types/index.ts: the per-market aggregate produced by
the position snapshot builder. -/
structure UserPosition where
  totalSupplied : ℚ
  totalBorrowed : ℚ
  healthFactor : ℚ
  liquidationThreshold : ℚ
  availableToBorrow : ℚ
  supplies : List AssetPosition
  borrows : List AssetPosition
deriving DecidableEq

/-- The source tag of an EnhancedUserBalance. -/
inductive BalanceSource where
  | wallet
  | core
  | morpho
  | vault
deriving DecidableEq

/-- EnhancedUserBalance: the market-agnostic balance record consumed by the
aggregator; negative balance encodes debt in this shape. -/
structure EnhancedUserBalance where
  tokenAddress : String
  symbol : String
  balance : ℚ
  balanceInUSD : ℚ
  price : ℚ
  source : BalanceSource
  apy : Option ℚ := none
  isCollateral : Option Bool := none
deriving DecidableEq

/-- UserBalanceParams with the defaults destructured at the top of
getAllUserBalances (all sources included, 0.01 USD minimum). -/
structure UserBalanceParams where
  includeWallet : Bool := true
  includeCore : Bool := true
  includeMorpho : Bool := true
  includeVaults : Bool := true
  minBalanceThreshold : ℚ := 1 / 100
deriving DecidableEq

/-- BalanceBreakdown: four per-source lists plus five USD totals. -/
structure BalanceBreakdown where
  walletBalances : List EnhancedUserBalance
  corePositions : List EnhancedUserBalance
  morphoPositions : List EnhancedUserBalance
  vaultPositions : List EnhancedUserBalance
  totalBalanceInUSD : ℚ
  totalWalletValueInUSD : ℚ
  totalCoreValueInUSD : ℚ
  totalMorphoValueInUSD : ℚ
  totalVaultValueInUSD : ℚ
deriving DecidableEq

/-- Address lookup into SUPPORTED_ASSETS, defaulting to the empty string as
in convertCorePositionsToEnhanced. -/
def lookupAssetAddress (asset : String) : String :=
  match SUPPORTED_ASSETS.find? (fun p => p.1 == asset) with
  | some p => p.2.address
  | none => ""

/-- The supply branch of convertCorePositionsToEnhanced (service file,
getAllUserBalances section): balance and USD value are passed through
unchanged. -/
def convertSupplyToEnhanced (supply : AssetPosition) : EnhancedUserBalance :=
  { tokenAddress := lookupAssetAddress supply.asset
    symbol := supply.symbol
    balance := supply.balance
    balanceInUSD := supply.balanceInUSD
    price := supply.balanceInUSD / (if 0 < supply.balance then supply.balance else 1)
    source := BalanceSource.core
    apy := some supply.apy
    isCollateral := supply.isCollateral }

/-- The borrow branch of convertCorePositionsToEnhanced: balance and USD
value are negated. -/
def convertBorrowToEnhanced (borrow : AssetPosition) : EnhancedUserBalance :=
  { tokenAddress := lookupAssetAddress borrow.asset
    symbol := borrow.symbol
    balance := -borrow.balance
    balanceInUSD := -borrow.balanceInUSD
    price := borrow.balanceInUSD / (if 0 < borrow.balance then borrow.balance else 1)
    source := BalanceSource.core
    apy := some borrow.apy }

/-- convertCorePositionsToEnhanced: supplies are converted first, borrow
entries are appended after them. -/
def convertCorePositionsToEnhanced (position : UserPosition) :
    List EnhancedUserBalance :=
  position.supplies.map convertSupplyToEnhanced ++
    position.borrows.map convertBorrowToEnhanced


/-- The reduce over balanceInUSD used for every per-source total in
getAllUserBalances. -/
def sumBalanceUSD (l : List EnhancedUserBalance) : ℚ :=
  l.foldl (fun sum b => sum + b.balanceInUSD) 0

/-- The filter-and-reduce applied to a successfully fetched wallet, morpho
or vault list in getAllUserBalances: keep entries whose signed balanceInUSD
is at least minBalanceThreshold, then sum the kept USD values. -/
def filterAndTotal (minBalanceThreshold : ℚ) (l : List EnhancedUserBalance) :
    List EnhancedUserBalance × ℚ :=
  let filtered := l.filter (fun b => minBalanceThreshold ≤ b.balanceInUSD)
  (filtered, sumBalanceUSD filtered)

/-- One wallet, morpho or vault source block of getAllUserBalances: skipped
sources and caught fetch failures leave the contribution empty. -/
def sourcePair (includeSource : Bool)
    (fetch : Option (List EnhancedUserBalance)) (minBalanceThreshold : ℚ) :
    List EnhancedUserBalance × ℚ :=
  if includeSource then
    match fetch with
    | some l => filterAndTotal minBalanceThreshold l
    | none => ([], 0)
  else ([], 0)

/-- The core-source block of getAllUserBalances: the fetched UserPosition is
converted to enhanced balances and summed with no minimum-threshold
filter. -/
def corePairOf (includeCore : Bool) (fetch : Option UserPosition) :
    List EnhancedUserBalance × ℚ :=
  if includeCore then
    match fetch with
    | some position =>
      let converted := convertCorePositionsToEnhanced position
      (converted, sumBalanceUSD converted)
    | none => ([], 0)
  else ([], 0)

/-- getAllUserBalances (enhanced-balance service method): each source fetch
is an Option, none standing for the caught per-source failure that leaves
that contribution empty.  Wallet, morpho and vault lists are filtered by the
signed comparison balanceInUSD greater-or-equal minBalanceThreshold; the
core list is not filtered.  The grand total is the sum of the four source
totals. -/
def getAllUserBalances (params : UserBalanceParams)
    (walletFetch : Option (List EnhancedUserBalance))
    (coreFetch : Option UserPosition)
    (morphoFetch vaultFetch : Option (List EnhancedUserBalance)) :
    BalanceBreakdown :=
  let walletPair := sourcePair params.includeWallet walletFetch params.minBalanceThreshold
  let corePair := corePairOf params.includeCore coreFetch
  let morphoPair := sourcePair params.includeMorpho morphoFetch params.minBalanceThreshold
  let vaultPair := sourcePair params.includeVaults vaultFetch params.minBalanceThreshold
  { walletBalances := walletPair.1
    corePositions := corePair.1
    morphoPositions := morphoPair.1
    vaultPositions := vaultPair.1
    totalBalanceInUSD := walletPair.2 + corePair.2 + morphoPair.2 + vaultPair.2
    totalWalletValueInUSD := walletPair.2
    totalCoreValueInUSD := corePair.2
    totalMorphoValueInUSD := morphoPair.2
    totalVaultValueInUSD := vaultPair.2 }

/-- Helper: a filtered source total is the sum over its kept list. -/
theorem sourcePair_snd (includeSource : Bool)
    (fetch : Option (List EnhancedUserBalance)) (t : ℚ) :
    (sourcePair includeSource fetch t).2 =
      sumBalanceUSD (sourcePair includeSource fetch t).1 := by
  cases includeSource <;> cases fetch <;>
    simp [sourcePair, filterAndTotal, sumBalanceUSD]

/-- Helper: the core total is the sum over the converted core list. -/
theorem corePairOf_snd (includeCore : Bool) (fetch : Option UserPosition) :
    (corePairOf includeCore fetch).2 =
      sumBalanceUSD (corePairOf includeCore fetch).1 := by
  cases includeCore <;> cases fetch <;>
    simp [corePairOf, sumBalanceUSD]

/-- Helper: every entry kept by a filtered source block meets the signed
threshold. -/
theorem sourcePair_mem (includeSource : Bool)
    (fetch : Option (List EnhancedUserBalance)) (t : ℚ)
    (e : EnhancedUserBalance)
    (he : e ∈ (sourcePair includeSource fetch t).1) : t ≤ e.balanceInUSD := by
  cases includeSource with
  | false => simp [sourcePair] at he
  | true =>
    cases fetch with
    | none => simp [sourcePair] at he
    | some l =>
      simp [sourcePair, filterAndTotal, List.mem_filter] at he
      exact he.2

/-- C4: in every breakdown produced by getAllUserBalances the grand total is
exactly the sum of the four per-source totals, and each per-source total is
exactly the sum of balanceInUSD over the list stored for that source. -/
theorem getAllUserBalances_conservation (params : UserBalanceParams)
    (walletFetch : Option (List EnhancedUserBalance))
    (coreFetch : Option UserPosition)
    (morphoFetch vaultFetch : Option (List EnhancedUserBalance)) :
    (getAllUserBalances params walletFetch coreFetch morphoFetch vaultFetch).totalBalanceInUSD =
        (getAllUserBalances params walletFetch coreFetch morphoFetch vaultFetch).totalWalletValueInUSD +
        (getAllUserBalances params walletFetch coreFetch morphoFetch vaultFetch).totalCoreValueInUSD +
        (getAllUserBalances params walletFetch coreFetch morphoFetch vaultFetch).totalMorphoValueInUSD +
        (getAllUserBalances params walletFetch coreFetch morphoFetch vaultFetch).totalVaultValueInUSD ∧
      (getAllUserBalances params walletFetch coreFetch morphoFetch vaultFetch).totalWalletValueInUSD =
        sumBalanceUSD (getAllUserBalances params walletFetch coreFetch morphoFetch vaultFetch).walletBalances ∧
      (getAllUserBalances params walletFetch coreFetch morphoFetch vaultFetch).totalCoreValueInUSD =
        sumBalanceUSD (getAllUserBalances params walletFetch coreFetch morphoFetch vaultFetch).corePositions ∧
      (getAllUserBalances params walletFetch coreFetch morphoFetch vaultFetch).totalMorphoValueInUSD =
        sumBalanceUSD (getAllUserBalances params walletFetch coreFetch morphoFetch vaultFetch).morphoPositions ∧
      (getAllUserBalances params walletFetch coreFetch morphoFetch vaultFetch).totalVaultValueInUSD =
        sumBalanceUSD (getAllUserBalances params walletFetch coreFetch morphoFetch vaultFetch).vaultPositions := by
  refine ⟨rfl, ?_, ?_, ?_, ?_⟩ <;>
    simp only [getAllUserBalances] <;>
      first
        | exact sourcePair_snd _ _ _
        | exact corePairOf_snd _ _

/-- A core position holding a single collateral supply worth 0.005 USD. -/
def posSmallSupply : UserPosition :=
  { totalSupplied := 1 / 200
    totalBorrowed := 0
    healthFactor := 999
    liquidationThreshold := 4 / 5
    availableToBorrow := 0
    supplies := [{ asset := "USDC", symbol := "USDC", balance := 1 / 2,
                   balanceInUSD := 1 / 200, apy := 0, isCollateral := some true }]
    borrows := [] }

/-- C5 counterexample: with the default 0.01 USD threshold, a core entry
worth 0.005 USD in absolute value still appears in corePositions and still
contributes to totalCoreValueInUSD, because getAllUserBalances never filters
the core list. -/
theorem minBalanceFilter_counterexample :
    ({} : UserBalanceParams).minBalanceThreshold = 1 / 100 ∧
    ((getAllUserBalances {} none (some posSmallSupply) none none).corePositions.map
        (fun e => e.balanceInUSD)) = [1 / 200] ∧
    |(1 / 200 : ℚ)| < 1 / 100 ∧
    (getAllUserBalances {} none (some posSmallSupply) none none).totalCoreValueInUSD
      = 1 / 200 := by
  refine ⟨rfl, ?_, ?_, ?_⟩
  · simp [getAllUserBalances, corePairOf, posSmallSupply,
      convertCorePositionsToEnhanced, convertSupplyToEnhanced]
  · rw [abs_of_pos (by norm_num : (0 : ℚ) < 1 / 200)]
    norm_num
  · simp [getAllUserBalances, corePairOf, posSmallSupply, sumBalanceUSD,
      convertCorePositionsToEnhanced, convertSupplyToEnhanced]

/-- A wallet balance worth 0.005 USD, below the default threshold. -/
def walletDust : EnhancedUserBalance :=
  { tokenAddress := "0x833589fCD6eDb6E08f4c7C32D4f71b54bdA02913"
    symbol := "USDC"
    balance := 1 / 2
    balanceInUSD := 1 / 200
    price := 1 / 100
    source := BalanceSource.wallet }

/-- C5 amended: wallet, morpho and vault lists are filtered by the signed
comparison minBalanceThreshold less-or-equal balanceInUSD (not by absolute
value), the core list is not filtered, and the concrete wallet scenario
holds: a 0.005 USD wallet balance with the default 0.01 USD threshold is
excluded from walletBalances and contributes nothing to
totalWalletValueInUSD. -/
theorem minBalanceFilter_amended :
    (∀ (params : UserBalanceParams) (wf : Option (List EnhancedUserBalance))
        (cf : Option UserPosition) (mf vf : Option (List EnhancedUserBalance)),
      (∀ e ∈ (getAllUserBalances params wf cf mf vf).walletBalances,
          params.minBalanceThreshold ≤ e.balanceInUSD) ∧
      (∀ e ∈ (getAllUserBalances params wf cf mf vf).morphoPositions,
          params.minBalanceThreshold ≤ e.balanceInUSD) ∧
      (∀ e ∈ (getAllUserBalances params wf cf mf vf).vaultPositions,
          params.minBalanceThreshold ≤ e.balanceInUSD)) ∧
    (getAllUserBalances {} (some [walletDust]) none none none).walletBalances = [] ∧
    (getAllUserBalances {} (some [walletDust]) none none none).totalWalletValueInUSD
      = 0 := by
  refine ⟨?_, ?_, ?_⟩
  · intro params wf cf mf vf
    exact ⟨fun e he => sourcePair_mem _ _ _ e he,
      fun e he => sourcePair_mem _ _ _ e he,
      fun e he => sourcePair_mem _ _ _ e he⟩
  · norm_num [getAllUserBalances, sourcePair, filterAndTotal, walletDust,
      List.filter_cons]
  · norm_num [getAllUserBalances, sourcePair, filterAndTotal, walletDust,
      sumBalanceUSD, List.filter_cons]

/-- A wallet balance comfortably above the default threshold. -/
def walletLarge : EnhancedUserBalance :=
  { tokenAddress := "0x833589fCD6eDb6E08f4c7C32D4f71b54bdA02913"
    symbol := "USDC"
    balance := 5
    balanceInUSD := 5
    price := 1
    source := BalanceSource.wallet }

/-- Witness for the amended C5 at a concrete retained wallet entry. -/
theorem minBalanceFilter_amended_witness :
    walletLarge ∈ (getAllUserBalances {} (some [walletLarge]) none none none).walletBalances ∧
      ({} : UserBalanceParams).minBalanceThreshold ≤ walletLarge.balanceInUSD :=
  ⟨by norm_num [getAllUserBalances, sourcePair, filterAndTotal, walletLarge,
      List.filter_cons],
    (minBalanceFilter_amended.1 {} (some [walletLarge]) none none none).1
      walletLarge
      (by norm_num [getAllUserBalances, sourcePair, filterAndTotal, walletLarge,
        List.filter_cons])⟩

/-- A core position whose borrow entry satisfies the balance-nonnegativity
invariant but carries a negative USD valuation. -/
def posNegativeUSD : UserPosition :=
  { totalSupplied := 0
    totalBorrowed := 5
    healthFactor := 1
    liquidationThreshold := 4 / 5
    availableToBorrow := 0
    supplies := []
    borrows := [{ asset := "USDC", symbol := "USDC", balance := 1,
                  balanceInUSD := -5, apy := 0 }] }

/-- C6 counterexample: every AssetPosition of posNegativeUSD has
non-negative balance, yet the enhanced entry converted from its borrows list
has balanceInUSD equal to 5, which is not non-positive; the balance
invariant alone does not bound the sign of the converted USD value. -/
theorem signConvention_counterexample :
    posNegativeUSD.borrows.all (fun a => decide (0 ≤ a.balance)) = true ∧
    posNegativeUSD.supplies = [] ∧
    (convertCorePositionsToEnhanced posNegativeUSD).map (fun e => e.balanceInUSD)
      = [5] ∧
    ¬ ((5 : ℚ) ≤ 0) := by
  refine ⟨by decide, rfl, ?_, by norm_num⟩
  simp [posNegativeUSD, convertCorePositionsToEnhanced, convertBorrowToEnhanced]

/-- C6 amended: when every AssetPosition of the position has non-negative
balance and non-negative balanceInUSD, the conversion yields non-positive
balance and balanceInUSD for every entry coming from borrows (both are
negated) and non-negative balance and balanceInUSD for every entry coming
from supplies. -/
theorem signConvention_amended :
    ∀ (position : UserPosition),
      (∀ a ∈ position.supplies, 0 ≤ a.balance ∧ 0 ≤ a.balanceInUSD) →
      (∀ a ∈ position.borrows, 0 ≤ a.balance ∧ 0 ≤ a.balanceInUSD) →
      convertCorePositionsToEnhanced position =
          position.supplies.map convertSupplyToEnhanced ++
            position.borrows.map convertBorrowToEnhanced ∧
        (∀ a ∈ position.supplies, 0 ≤ (convertSupplyToEnhanced a).balance ∧
            0 ≤ (convertSupplyToEnhanced a).balanceInUSD) ∧
        (∀ a ∈ position.borrows, (convertBorrowToEnhanced a).balance ≤ 0 ∧
            (convertBorrowToEnhanced a).balanceInUSD ≤ 0) := by
  intro position hs hb
  refine ⟨rfl, fun a ha => hs a ha, fun a ha => ?_⟩
  exact ⟨neg_nonpos.mpr (hb a ha).1, neg_nonpos.mpr (hb a ha).2⟩

/-- A core position with one supply and one borrow, all values
non-negative. -/
def posRegular : UserPosition :=
  { totalSupplied := 2
    totalBorrowed := 3
    healthFactor := 999
    liquidationThreshold := 4 / 5
    availableToBorrow := 0
    supplies := [{ asset := "USDC", symbol := "USDC", balance := 2,
                   balanceInUSD := 2, apy := 0, isCollateral := some true }]
    borrows := [{ asset := "WETH", symbol := "WETH", balance := 1,
                  balanceInUSD := 3, apy := 0 }] }

/-- Witness for the amended C6 at posRegular. -/
theorem signConvention_amended_witness :
    (∀ a ∈ posRegular.supplies, 0 ≤ a.balance ∧ 0 ≤ a.balanceInUSD) ∧
      (∀ a ∈ posRegular.borrows, (convertBorrowToEnhanced a).balance ≤ 0 ∧
          (convertBorrowToEnhanced a).balanceInUSD ≤ 0) :=
  ⟨by decide,
    (signConvention_amended posRegular (by decide) (by decide)).2.2⟩

/-- Raw per-market chain reads consumed by getUserPosition: mToken balance,
stored exchange rate, oracle price, stored borrow balance, per-block rates
and comptroller collateral membership. -/
structure RawMarketData where
  mTokenBalance : Nat
  exchangeRate : Nat
  underlyingPrice : Nat
  borrowBalance : Nat
  supplyRatePerBlock : Nat
  borrowRatePerBlock : Nat
  isCollateralMember : Bool
deriving DecidableEq

/-- Approximate blocks per year on Base, from the APY computations of
src/services/moonwell-service.ts. -/
def blocksPerYear : Nat := 2628000

/-- One iteration of the market loop of MoonwellService.getUserPosition,
src/services/moonwell-service.ts lines 532-606: a positive underlying
balance appends a supply entry and, only when collateral membership holds,
adds its USD value to the supplied total; a positive borrow balance appends
a borrow entry and always adds its USD value to the borrowed total. -/
def accumPosition (acc : List AssetPosition × List AssetPosition × ℚ × ℚ)
    (entry : String × RawMarketData) :
    List AssetPosition × List AssetPosition × ℚ × ℚ :=
  let asset := entry.1
  let d := entry.2
  let supplies := acc.1
  let borrows := acc.2.1
  let totalSuppliedUSD := acc.2.2.1
  let totalBorrowedUSD := acc.2.2.2
  let underlyingBalance : ℚ := (d.mTokenBalance : ℚ) * (d.exchangeRate : ℚ) / 10 ^ 18
  let supplyStep : List AssetPosition × ℚ :=
    if 0 < underlyingBalance then
      let balanceInUSD := underlyingBalance * (d.underlyingPrice : ℚ) / 10 ^ 36
      let apy := (d.supplyRatePerBlock : ℚ) * (blocksPerYear : ℚ) / 10 ^ 18
      (supplies ++ [{ asset := asset, symbol := asset, balance := underlyingBalance,
                      balanceInUSD := balanceInUSD, apy := apy,
                      isCollateral := some d.isCollateralMember }],
       if d.isCollateralMember then totalSuppliedUSD + balanceInUSD
       else totalSuppliedUSD)
    else (supplies, totalSuppliedUSD)
  let borrowStep : List AssetPosition × ℚ :=
    if 0 < d.borrowBalance then
      let balanceInUSD := (d.borrowBalance : ℚ) * (d.underlyingPrice : ℚ) / 10 ^ 36
      let apy := (d.borrowRatePerBlock : ℚ) * (blocksPerYear : ℚ) / 10 ^ 18
      (borrows ++ [{ asset := asset, symbol := asset,
                     balance := (d.borrowBalance : ℚ),
                     balanceInUSD := balanceInUSD, apy := apy }],
       totalBorrowedUSD + balanceInUSD)
    else (borrows, totalBorrowedUSD)
  (supplyStep.1, borrowStep.1, supplyStep.2, borrowStep.2)

/-- MoonwellService.getUserPosition, src/services/moonwell-service.ts lines
510-636, as a pure function of the comptroller account liquidity and the
per-market chain reads: fold the market loop, then set the sentinel 999 when
the borrowed total is zero and the rounded 0.8-weighted ratio otherwise. -/
def getUserPosition (accountCollateral : Nat)
    (markets : List (String × RawMarketData)) : UserPosition :=
  let acc := markets.foldl accumPosition ([], [], 0, 0)
  { totalSupplied := acc.2.2.1
    totalBorrowed := acc.2.2.2
    healthFactor :=
      if acc.2.2.2 = 0 then 999
      else calculateHealthFactor acc.2.2.1 acc.2.2.2 (4 / 5)
    liquidationThreshold := 4 / 5
    availableToBorrow := (accountCollateral : ℚ) / 10 ^ 18
    supplies := acc.1
    borrows := acc.2.1 }

/-- A single market whose collateral supply is worth 1248.75 USD against a
1 USD borrow: the computed ratio is 1248.75 times 0.8, exactly 999. -/
def rawHighCollateral : List (String × RawMarketData) :=
  [("WETH", { mTokenBalance := 124875, exchangeRate := 10 ^ 16,
              underlyingPrice := 10 ^ 36, borrowBalance := 1,
              supplyRatePerBlock := 0, borrowRatePerBlock := 0,
              isCollateralMember := true })]

/-- C3 counterexample: the snapshot built from rawHighCollateral has
positive debt (1 USD) yet reports healthFactor 999, because the computed
rounded ratio coincides with the sentinel; the sentinel equivalence fails in
the debt-positive direction. -/
theorem sentinel_counterexample :
    (getUserPosition 0 rawHighCollateral).totalBorrowed = 1 ∧
    (getUserPosition 0 rawHighCollateral).healthFactor = 999 ∧
    ¬ ((getUserPosition 0 rawHighCollateral).totalBorrowed = 0) := by
  refine ⟨?_, ?_, ?_⟩ <;>
    norm_num [getUserPosition, accumPosition, rawHighCollateral,
      calculateHealthFactor, roundTo2, blocksPerYear]

/-- C3 amended: the sentinel direction that holds is zero debt implies
healthFactor 999; with positive debt the health factor is the rounded
0.8-weighted collateral-to-debt ratio, which can itself equal 999. -/
theorem sentinel_amended :
    ∀ (accountCollateral : Nat) (markets : List (String × RawMarketData)),
      ((getUserPosition accountCollateral markets).totalBorrowed = 0 →
        (getUserPosition accountCollateral markets).healthFactor = 999) ∧
      ((getUserPosition accountCollateral markets).totalBorrowed ≠ 0 →
        (getUserPosition accountCollateral markets).healthFactor =
          roundTo2 ((getUserPosition accountCollateral markets).totalSupplied * (4 / 5) /
            (getUserPosition accountCollateral markets).totalBorrowed)) := by
  intro accountCollateral markets
  constructor
  · intro h
    simp only [getUserPosition] at h ⊢
    rw [if_pos h]
  · intro h
    simp only [getUserPosition] at h ⊢
    rw [if_neg h]
    unfold calculateHealthFactor
    rw [if_neg h]

/-- Witness for the amended C3 at the rawHighCollateral snapshot. -/
theorem sentinel_amended_witness :
    (getUserPosition 0 rawHighCollateral).totalBorrowed ≠ 0 ∧
      (getUserPosition 0 rawHighCollateral).healthFactor =
        roundTo2 ((getUserPosition 0 rawHighCollateral).totalSupplied * (4 / 5) /
          (getUserPosition 0 rawHighCollateral).totalBorrowed) :=
  ⟨by norm_num [getUserPosition, accumPosition, rawHighCollateral],
    (sentinel_amended 0 rawHighCollateral).2
      (by norm_num [getUserPosition, accumPosition, rawHighCollateral])⟩

/-- Guard outcome of the withdraw action handler: rejection carries the
simulated health factor, as the LIQUIDATION_RISK response reports it. -/
inductive WithdrawGuardError where
  | noSupply
  | liquidationRisk (healthFactor : ℚ)
deriving DecidableEq

/-- Parsed withdraw request parameters. -/
structure WithdrawRequest where
  asset : String
  amount : ℚ
  isMax : Bool
deriving DecidableEq

/-- The supply-position lookup of the withdraw action handler: first supply
entry whose asset matches the request. -/
def findSupplyPosition (supplies : List AssetPosition) (asset : String) :
    Option AssetPosition :=
  supplies.find? (fun s => s.asset == asset)

/-- The pre-chain-call guard of the withdraw action handler
(MOONWELL_WITHDRAW): no supply in the asset rejects with noSupply; the
requested amount is clamped to the supplied balance on isMax or oversized
requests; when any debt is outstanding the post-withdrawal health factor is
simulated as (totalSupplied minus withdrawUSD) times liquidationThreshold
over totalBorrowed and the request is rejected with liquidationRisk when the
simulation is below the fixed 1.2 boundary.  An ok result carries the
amount and isMax flag passed on to the chain-submitting service call, so an
error means no chain transaction is attempted. -/
def withdrawActionCheck (position : UserPosition) (params : WithdrawRequest) :
    Except WithdrawGuardError (ℚ × Bool) :=
  match findSupplyPosition position.supplies params.asset with
  | none => Except.error WithdrawGuardError.noSupply
  | some supplyPosition =>
    if supplyPosition.balance = 0 then Except.error WithdrawGuardError.noSupply
    else
      let withdrawAmount :=
        if params.isMax ∨ supplyPosition.balance ≤ params.amount then
          supplyPosition.balance
        else params.amount
      let isMaxEffective :=
        if params.isMax ∨ supplyPosition.balance ≤ params.amount then true
        else params.isMax
      if position.totalBorrowed = 0 then Except.ok (withdrawAmount, isMaxEffective)
      else
        let withdrawValueUSD :=
          withdrawAmount * supplyPosition.balanceInUSD / supplyPosition.balance
        let newTotalSupplied := position.totalSupplied - withdrawValueUSD
        let estimatedHealthFactor :=
          newTotalSupplied * position.liquidationThreshold / position.totalBorrowed
        if estimatedHealthFactor < 6 / 5 then
          Except.error (WithdrawGuardError.liquidationRisk estimatedHealthFactor)
        else Except.ok (withdrawAmount, isMaxEffective)

/-- C1: on a position with outstanding debt, the withdraw guard simulates
the post-withdrawal health factor as (totalSupplied minus withdrawUSD)
times liquidationThreshold over totalBorrowed and rejects with a
liquidationRisk error carrying that value whenever it is below the fixed
1.2 boundary, which is hard-coded rather than taken from the configurable
alert threshold; the rejection is returned before the chain-submitting
call, so no chain transaction happens for a rejected withdrawal. -/
theorem withdraw_liquidationRisk_guard :
    ∀ (position : UserPosition) (params : WithdrawRequest)
      (sp : AssetPosition) (withdrawAmount estimatedHealthFactor : ℚ),
      findSupplyPosition position.supplies params.asset = some sp →
      sp.balance ≠ 0 →
      position.totalBorrowed ≠ 0 →
      withdrawAmount = (if params.isMax ∨ sp.balance ≤ params.amount then
          sp.balance else params.amount) →
      estimatedHealthFactor =
        (position.totalSupplied - withdrawAmount * sp.balanceInUSD / sp.balance) *
          position.liquidationThreshold / position.totalBorrowed →
      estimatedHealthFactor < 6 / 5 →
      withdrawActionCheck position params =
        Except.error (WithdrawGuardError.liquidationRisk estimatedHealthFactor) := by
  intro position params sp withdrawAmount estimatedHealthFactor
  intro hfind hbal hdebt hwa hest hlow
  subst hwa
  subst hest
  simp only [withdrawActionCheck, hfind]
  rw [if_neg hbal, if_neg hdebt, if_pos hlow]

/-- A position with 100 USD of collateral and 70 USD of debt, holding a
single USDC supply entry. -/
def posIndebted : UserPosition :=
  { totalSupplied := 100
    totalBorrowed := 70
    healthFactor := 114 / 100
    liquidationThreshold := 4 / 5
    availableToBorrow := 0
    supplies := [{ asset := "USDC", symbol := "USDC", balance := 100,
                   balanceInUSD := 100, apy := 0, isCollateral := some true }]
    borrows := [{ asset := "WETH", symbol := "WETH", balance := 1,
                  balanceInUSD := 70, apy := 0 }] }

/-- Witness for C1: withdrawing 50 of the 100 USDC against 70 USD of debt
simulates a health factor of 4/7, below 1.2, and is rejected. -/
theorem withdraw_liquidationRisk_guard_witness :
    findSupplyPosition posIndebted.supplies "USDC" =
        some { asset := "USDC", symbol := "USDC", balance := 100,
               balanceInUSD := 100, apy := 0, isCollateral := some true } ∧
      withdrawActionCheck posIndebted { asset := "USDC", amount := 50, isMax := false } =
        Except.error (WithdrawGuardError.liquidationRisk (4 / 7)) := by
  constructor
  · rfl
  · have h := withdraw_liquidationRisk_guard posIndebted
      { asset := "USDC", amount := 50, isMax := false }
      { asset := "USDC", symbol := "USDC", balance := 100,
        balanceInUSD := 100, apy := 0, isCollateral := some true }
      50 (4 / 7) rfl (by norm_num) (by norm_num [posIndebted])
      (by norm_num) (by norm_num [posIndebted]) (by norm_num)
    exact h

/-- Guard outcome of the borrow action handler (MOONWELL_BORROW). -/
inductive BorrowGuardResult where
  | noCollateral
  | exceedsBorrowCapacity
  | lowHealthFactor
  | proceed (amount : ℚ)
deriving DecidableEq

/-- The pre-chain-call guard pipeline of the borrow action handler,
src/actions/borrow-action.ts lines 86-155: zero supplied collateral is
rejected first with noCollateral, then the requested amount is checked
against availableToBorrow, then the current health factor against the 1.5
boundary, and only then is the service borrow call made. -/
def borrowActionCheck (position : UserPosition) (amount : ℚ) :
    BorrowGuardResult :=
  if position.totalSupplied = 0 then BorrowGuardResult.noCollateral
  else if position.availableToBorrow < amount then
    BorrowGuardResult.exceedsBorrowCapacity
  else if position.healthFactor < 3 / 2 then BorrowGuardResult.lowHealthFactor
  else BorrowGuardResult.proceed amount

/-- C2: a borrow request on a position with zero totalSupplied fails with
noCollateral regardless of the requested amount, and the collateral check
precedes the borrow-capacity check: a capacity rejection can only happen
when some collateral is supplied. -/
theorem borrow_noCollateral_guard :
    (∀ (position : UserPosition) (amount : ℚ), position.totalSupplied = 0 →
      borrowActionCheck position amount = BorrowGuardResult.noCollateral) ∧
    (∀ (position : UserPosition) (amount : ℚ),
      borrowActionCheck position amount = BorrowGuardResult.exceedsBorrowCapacity →
      position.totalSupplied ≠ 0) := by
  constructor
  · intro position amount h
    simp [borrowActionCheck, h]
  · intro position amount h hz
    simp [borrowActionCheck, hz] at h

/-- An empty position with no supplied collateral. -/
def posNoCollateral : UserPosition :=
  { totalSupplied := 0
    totalBorrowed := 0
    healthFactor := 999
    liquidationThreshold := 4 / 5
    availableToBorrow := 0
    supplies := []
    borrows := [] }

/-- Witness for C2: a 5-unit borrow request on the empty position is
rejected with noCollateral. -/
theorem borrow_noCollateral_guard_witness :
    posNoCollateral.totalSupplied = 0 ∧
      borrowActionCheck posNoCollateral 5 = BorrowGuardResult.noCollateral :=
  ⟨rfl, borrow_noCollateral_guard.1 posNoCollateral 5 rfl⟩

/-- Supplied and borrowed values of one isolated-market (morpho) user
position, as read by calculatePortfolioSummary. -/
structure MorphoPositionValues where
  supplied : ℚ
  borrowed : ℚ
deriving DecidableEq

/-- Risk-bucket distribution of the portfolio summary. -/
structure RiskDistribution where
  safe : ℚ
  moderate : ℚ
  high : ℚ
  critical : ℚ
deriving DecidableEq

/-- Per-market value distribution of the portfolio summary. -/
structure MarketDistribution where
  core : ℚ
  morpho : ℚ
  vaults : ℚ
deriving DecidableEq

/-- PortfolioSummary of the enhanced balance model. -/
structure PortfolioSummary where
  totalNetWorth : ℚ
  totalSupplied : ℚ
  totalBorrowed : ℚ
  totalRewardsValue : ℚ
  overallHealthFactor : ℚ
  weightedAverageSupplyAPY : ℚ
  weightedAverageBorrowAPY : ℚ
  riskDistribution : RiskDistribution
  marketDistribution : MarketDistribution
deriving DecidableEq

/-- calculatePortfolioSummary of the enhanced balance service: net worth is
the breakdown grand total; supplied and borrowed magnitudes add the morpho
values to the core totals; the overall health factor blends the core health
factor with a 999 morpho placeholder weighted by each share of total debt
whenever any morpho position exists; APYs are USD-weighted over the core
lists; the whole net worth is bucketed into exactly one risk class by
comparing the overall health factor against 2.0, 1.5 and 1.2. -/
def calculatePortfolioSummary (corePosition : UserPosition)
    (coreRewardsUSD : ℚ) (morphoPositions : List MorphoPositionValues)
    (morphoRewardsUSD : ℚ) (hasVaultPortfolio : Bool)
    (balanceBreakdown : BalanceBreakdown) : PortfolioSummary :=
  let totalNetWorth := balanceBreakdown.totalBalanceInUSD
  let totalSupplied := corePosition.totalSupplied +
      morphoPositions.foldl (fun sum p => sum + p.supplied * 1) 0 +
      (if hasVaultPortfolio then 0 else 0)
  let totalBorrowed := corePosition.totalBorrowed +
      morphoPositions.foldl (fun sum p => sum + p.borrowed * 1) 0
  let totalRewardsValue := coreRewardsUSD + morphoRewardsUSD
  let overallHealthFactor : ℚ :=
    if 0 < morphoPositions.length then
      let morphoAvgHealth : ℚ := 999
      let coreWeight := corePosition.totalBorrowed /
        (if 0 < totalBorrowed then totalBorrowed else 1)
      let morphoWeight := 1 - coreWeight
      corePosition.healthFactor * coreWeight + morphoAvgHealth * morphoWeight
    else corePosition.healthFactor
  let weightedSupplyRaw := corePosition.supplies.foldl
      (fun sum s => sum + s.apy * s.balanceInUSD) 0
  let totalSupplyWeight := corePosition.supplies.foldl
      (fun sum s => sum + s.balanceInUSD) 0
  let weightedBorrowRaw := corePosition.borrows.foldl
      (fun sum b => sum + b.apy * b.balanceInUSD) 0
  let totalBorrowWeight := corePosition.borrows.foldl
      (fun sum b => sum + b.balanceInUSD) 0
  let weightedSupplyAPY : ℚ :=
    if totalSupplyWeight = 0 then weightedSupplyRaw
    else weightedSupplyRaw / totalSupplyWeight
  let weightedBorrowAPY : ℚ :=
    if totalBorrowWeight = 0 then weightedBorrowRaw
    else weightedBorrowRaw / totalBorrowWeight
  let riskDistribution : RiskDistribution :=
    if 2 ≤ overallHealthFactor then ⟨totalNetWorth, 0, 0, 0⟩
    else if 3 / 2 ≤ overallHealthFactor then ⟨0, totalNetWorth, 0, 0⟩
    else if 6 / 5 ≤ overallHealthFactor then ⟨0, 0, totalNetWorth, 0⟩
    else ⟨0, 0, 0, totalNetWorth⟩
  { totalNetWorth := totalNetWorth
    totalSupplied := totalSupplied
    totalBorrowed := totalBorrowed
    totalRewardsValue := totalRewardsValue
    overallHealthFactor := overallHealthFactor
    weightedAverageSupplyAPY := weightedSupplyAPY
    weightedAverageBorrowAPY := weightedBorrowAPY
    riskDistribution := riskDistribution
    marketDistribution := ⟨balanceBreakdown.totalCoreValueInUSD,
      balanceBreakdown.totalMorphoValueInUSD,
      balanceBreakdown.totalVaultValueInUSD⟩ }

/-- Helper: the risk bucketing if-chain puts the whole amount into exactly
the bucket selected by the health factor. -/
theorem riskChain (hf tn : ℚ) :
    let rd : RiskDistribution :=
      if 2 ≤ hf then ⟨tn, 0, 0, 0⟩
      else if 3 / 2 ≤ hf then ⟨0, tn, 0, 0⟩
      else if 6 / 5 ≤ hf then ⟨0, 0, tn, 0⟩
      else ⟨0, 0, 0, tn⟩
    (rd.safe + rd.moderate + rd.high + rd.critical = tn) ∧
    (2 ≤ hf → rd = ⟨tn, 0, 0, 0⟩) ∧
    (hf < 2 → 3 / 2 ≤ hf → rd = ⟨0, tn, 0, 0⟩) ∧
    (hf < 3 / 2 → 6 / 5 ≤ hf → rd = ⟨0, 0, tn, 0⟩) ∧
    (hf < 6 / 5 → rd = ⟨0, 0, 0, tn⟩) := by
  dsimp only
  refine ⟨?_, ?_, ?_, ?_, ?_⟩
  · split_ifs <;> simp
  · intro h
    rw [if_pos h]
  · intro h1 h2
    rw [if_neg (not_le.mpr h1), if_pos h2]
  · intro h1 h2
    rw [if_neg (by linarith : ¬ (2 ≤ hf)), if_neg (not_le.mpr h1), if_pos h2]
  · intro h
    rw [if_neg (by linarith : ¬ (2 ≤ hf)), if_neg (by linarith : ¬ (3 / 2 ≤ hf)),
      if_neg (not_le.mpr h)]

/-- C10: every summary produced by calculatePortfolioSummary has risk
buckets that sum exactly to totalNetWorth, with the entire net worth placed
in the single bucket selected by comparing overallHealthFactor against the
fixed boundaries 2.0, 1.5 and 1.2, the other three buckets being zero. -/
theorem riskDistribution_buckets :
    ∀ (corePosition : UserPosition) (coreRewardsUSD : ℚ)
      (morphoPositions : List MorphoPositionValues) (morphoRewardsUSD : ℚ)
      (hasVaultPortfolio : Bool) (balanceBreakdown : BalanceBreakdown)
      (s : PortfolioSummary),
      s = calculatePortfolioSummary corePosition coreRewardsUSD morphoPositions
            morphoRewardsUSD hasVaultPortfolio balanceBreakdown →
      (s.riskDistribution.safe + s.riskDistribution.moderate +
          s.riskDistribution.high + s.riskDistribution.critical = s.totalNetWorth) ∧
      (2 ≤ s.overallHealthFactor → s.riskDistribution = ⟨s.totalNetWorth, 0, 0, 0⟩) ∧
      (s.overallHealthFactor < 2 → 3 / 2 ≤ s.overallHealthFactor →
        s.riskDistribution = ⟨0, s.totalNetWorth, 0, 0⟩) ∧
      (s.overallHealthFactor < 3 / 2 → 6 / 5 ≤ s.overallHealthFactor →
        s.riskDistribution = ⟨0, 0, s.totalNetWorth, 0⟩) ∧
      (s.overallHealthFactor < 6 / 5 →
        s.riskDistribution = ⟨0, 0, 0, s.totalNetWorth⟩) := by
  intro corePosition coreRewardsUSD morphoPositions morphoRewardsUSD
    hasVaultPortfolio balanceBreakdown s hs
  subst hs
  simp only [calculatePortfolioSummary]
  exact riskChain _ _

/-- A balance breakdown with 7 USD of wallet value only. -/
def breakdownSeven : BalanceBreakdown :=
  { walletBalances := []
    corePositions := []
    morphoPositions := []
    vaultPositions := []
    totalBalanceInUSD := 7
    totalWalletValueInUSD := 7
    totalCoreValueInUSD := 0
    totalMorphoValueInUSD := 0
    totalVaultValueInUSD := 0 }

/-- Witness for C10: a debt-free core position with no morpho positions has
overall health factor 999, so the whole 7 USD net worth lands in the safe
bucket. -/
theorem riskDistribution_buckets_witness :
    (calculatePortfolioSummary posNoCollateral 0 [] 0 false breakdownSeven).riskDistribution
        = ⟨(calculatePortfolioSummary posNoCollateral 0 [] 0 false breakdownSeven).totalNetWorth,
            0, 0, 0⟩ ∧
      (2 : ℚ) ≤ (calculatePortfolioSummary posNoCollateral 0 [] 0 false breakdownSeven).overallHealthFactor :=
  ⟨(riskDistribution_buckets posNoCollateral 0 [] 0 false breakdownSeven _ rfl).2.1
      (by norm_num [calculatePortfolioSummary, posNoCollateral]),
    by norm_num [calculatePortfolioSummary, posNoCollateral]⟩
